import Mathlib

/-!
Verification of the `bevy_spicy_ldtk` loading pipeline.

The repository binds an LDtk project file into typed in-memory data.  This
development shallowly embeds the relevant parts of the source:

* `src/lib.rs`: `Tile::load`, `Layer::load`, `Level::load`, `reverse_row_wise`,
  together with the output types `Tile`, `Layer`, `SpecialValues`, `Level` and
  the error type `LdtkError` from `src/error.rs`;
* `derive/src/lib.rs`: `color_from_str` and the per-field value generation done
  by `build_fields`.

Machine integers: the Rust code works with `i64` values (the `ldtk2` raw
document) and `i32` values (`bevy::math::IVec2`).  Both are modelled as `Int`;
every `as i32` cast and every `i32` arithmetic operation applies the explicit
two's-complement wrap `wrap32`.  Rust `Vec<i64>` pairs such as `TileInstance.px`
are modelled as two named fields (index 0 and index 1 of the vector).

Panics (`Option::unwrap`, `Result::unwrap`) are modelled explicitly: functions
that can panic return an outcome type with a dedicated `panic` constructor
(`LoadResult` below) or return `Option` where `none` marks the panic.
-/

/-- Two's-complement wrap of an integer into the `i32` range, the model of a
Rust `as i32` cast (and of wrapping `i32` arithmetic). -/
def wrap32 (n : Int) : Int := (n + 2 ^ 31) % 2 ^ 32 - 2 ^ 31

/-- The value fits in an `i32`, so that `wrap32` is the identity on it. -/
def inI32 (n : Int) : Prop := -(2 ^ 31) ≤ n ∧ n < 2 ^ 31

instance (n : Int) : Decidable (inI32 n) :=
  inferInstanceAs (Decidable (_ ∧ _))

/-- Wrapping `i32` negation (`-a` on `i32` operands). -/
def i32neg (a : Int) : Int := wrap32 (-a)

/-- Wrapping `i32` subtraction. -/
def i32sub (a b : Int) : Int := wrap32 (a - b)

/-- Wrapping `i32` multiplication. -/
def i32mul (a b : Int) : Int := wrap32 (a * b)

/-- Model of the Rust `i64 as usize` cast on a 64-bit target: reinterpret the
two's-complement bits as an unsigned 64-bit value. -/
def usizeOfI64 (n : Int) : Nat := (n % 2 ^ 64).toNat

/-- Model of `bevy::math::IVec2` (two `i32` components). -/
structure IVec2 where
  x : Int
  y : Int
deriving DecidableEq

/-- Componentwise `IVec2 * i32` scalar multiplication (wrapping, as in bevy). -/
def IVec2.mulScalar (v : IVec2) (s : Int) : IVec2 :=
  ⟨i32mul v.x s, i32mul v.y s⟩

/-- Embedding of Rust `slice::chunks(row_length)` as used by
`reverse_row_wise` in `src/lib.rs`: split a list into consecutive chunks of
`n` elements, the last chunk possibly shorter.  Rust panics when `n = 0`; the
`n = 0` case here returns `[]` and every theorem that touches a chunked list
assumes `0 < n`. -/
def chunksRust (n : Nat) (l : List α) : List (List α) :=
  if _hn : n = 0 then []
  else
    match l with
    | [] => []
    | x :: xs => (x :: xs).take n :: chunksRust n ((x :: xs).drop n)
termination_by l.length
decreasing_by
  simp only [List.length_drop]
  exact Nat.sub_lt (Nat.succ_pos _) (Nat.pos_of_ne_zero _hn)

/-- Embedding of `reverse_row_wise` from `src/lib.rs`: chunk the flat list
into rows of `row_length` elements and reverse the order of the rows. -/
def reverse_row_wise (list : List α) (row_length : Nat) : List α :=
  ((chunksRust row_length list).reverse).flatten

/-! ## Raw LDtk document types (the subset of the `ldtk2` crate the repo reads) -/

namespace ldtk2

/-- Raw tile instance.  The source's `px : Vec<i64>` and `src : Vec<i64>` hold
the pair `[x, y]`; they are modelled as two named fields each. -/
structure TileInstance where
  f : Int
  px_x : Int
  px_y : Int
  src_x : Int
  src_y : Int
  t : Int
deriving DecidableEq

/-- Raw JSON value carried by a field instance.  JSON numbers are modelled as
integers (no claim exercises fractional values). -/
inductive Json where
  | null
  | jbool (b : Bool)
  | jnum (n : Int)
  | jstr (s : String)
  | jarr (elems : List Json)

/-- Raw field instance (`identifier`, `__type`, `__value`). -/
structure FieldInstance where
  identifier : String
  field_instance_type : String
  value : Option Json

/-- Raw entity instance.  The core library never reads its fields itself; it
hands the list to a generated deserializer. -/
structure EntityInstance where
  identifier : String
  field_instances : List FieldInstance

/-- Raw layer instance (the fields `Layer::load` reads). -/
structure LayerInstance where
  c_hei : Int
  c_wid : Int
  grid_size : Int
  opacity : Float
  px_total_offset_x : Int
  px_total_offset_y : Int
  visible : Bool
  tileset_def_uid : Option Int
  layer_def_uid : Int
  layer_instance_type : String
  int_grid_csv : List Int
  auto_layer_tiles : List TileInstance
  grid_tiles : List TileInstance
  entity_instances : List EntityInstance

/-- Raw background-position record.  The source's `top_left_px : Vec<i64>`
holds the pair `[x, y]`, modelled as two named fields. -/
structure LevelBackgroundPosition where
  top_left_px_x : Int
  top_left_px_y : Int
deriving DecidableEq

/-- Raw level (the fields `Level::load` reads).  `layer_instances` is `None`
when the project is saved with levels in separate files. -/
structure Level where
  field_instances : List FieldInstance
  layer_instances : Option (List LayerInstance)
  bg_color : String
  bg_pos : Option LevelBackgroundPosition
  bg_rel_path : Option String
  identifier : String
  px_wid : Int
  px_hei : Int
  uid : Int
  world_x : Int
  world_y : Int

end ldtk2

/-! ## Output types and loaders from `src/lib.rs` / `src/error.rs` -/

/-- Embedding of `LdtkError` from `src/error.rs`.  The `serde_json::Error`
payload of `Json` is modelled as its message string. -/
inductive LdtkError where
  | Json (msg : String)
  | MissingFieldsForEntities
  | MissingFieldsForLayers
  | MissingFieldsForLevels
  | UnknownLayerType (s : String)
  | UnknownEntityType (s : String)
deriving DecidableEq

/-- Model of the external `bevy::render::color::Color` as the parsed channel
bytes.  (bevy stores `f32` components obtained by dividing these bytes by 255;
no claim inspects the numeric components of a `Color`, so the bytes are kept.) -/
structure Color where
  r : Nat
  g : Nat
  b : Nat
deriving DecidableEq

/-- Value of one hexadecimal digit. -/
def hexDigitVal (c : Char) : Option Nat :=
  if '0' ≤ c ∧ c ≤ '9' then some (c.toNat - 48)
  else if 'a' ≤ c ∧ c ≤ 'f' then some (c.toNat - 87)
  else if 'A' ≤ c ∧ c ≤ 'F' then some (c.toNat - 55)
  else none

/-- Model of the external `bevy::render::color::Color::hex` in the only form
the repository feeds it: a six-hex-digit `rrggbb` string (the `#` is stripped
by the caller).  bevy also accepts 3-, 4- and 8-digit forms, which the LDtk
document never produces; every other input is a parse failure here as there. -/
def Color.hex (s : String) : Option Color :=
  match s.toList.map hexDigitVal with
  | [some r1, some r2, some g1, some g2, some b1, some b2] =>
    some ⟨16 * r1 + r2, 16 * g1 + g2, 16 * b1 + b2⟩
  | _ => none

/-- Embedding of the `Tile` output struct. -/
structure Tile where
  flip_x : Bool
  flip_y : Bool
  position_px : IVec2
  src_px : IVec2
  id : Int
deriving DecidableEq

/-- Embedding of `Tile::load`.  The source returns `LdtkResult<Self>` but has
no failing path (it always ends in `Ok(...)`), so the embedding is total.
`tile.f & 0x1 == 1` and `tile.f & 0x2 == 1` are Rust `i64` expressions in
which `&` binds tighter than `==`. -/
def Tile.load (tile : ldtk2.TileInstance) (layer_dimensions_px : IVec2) : Tile :=
  { flip_x := tile.f.land 0x1 == 1
    flip_y := tile.f.land 0x2 == 1
    position_px :=
      ⟨wrap32 tile.px_x, i32sub (i32neg (wrap32 tile.px_y)) layer_dimensions_px.y⟩
    src_px := ⟨wrap32 tile.src_x, wrap32 tile.src_y⟩
    id := tile.t }

/-- Embedding of the `SpecialValues` enum. -/
inductive SpecialValues (Entities : Type u) where
  | IntGrid (values : List Int) (auto_layer : List Tile)
  | Entities (entities : Entities)
  | Tiles (tileset : Option Int) (tiles : List Tile)
  | AutoLayer (auto_layer : List Tile)

/-- Embedding of the `Layer` output struct. -/
structure Layer (EntityFields : Type u) where
  dimensions_cell : IVec2
  grid_size : Int
  opacity : Float
  total_offset_px : IVec2
  visible : Bool
  tileset_uid : Option Int
  layer_definition : Int
  special : SpecialValues EntityFields

/-- Embedding of `Layer::load`, generic over the derived entity deserializer
(`EntityFields::deserialize_ldtk`, which receives the instance list, the layer
size in cells and the layer size in pixels). -/
def Layer.load {E : Type u}
    (dE : List ldtk2.EntityInstance → IVec2 → IVec2 → Except LdtkError E)
    (ldtk_layer : ldtk2.LayerInstance) : Except LdtkError (Layer E) :=
  let dimensions_cell : IVec2 := ⟨wrap32 ldtk_layer.c_wid, wrap32 ldtk_layer.c_hei⟩
  let grid_size := ldtk_layer.grid_size
  let opacity := ldtk_layer.opacity
  let total_offset_px : IVec2 :=
    ⟨wrap32 ldtk_layer.px_total_offset_x,
     i32sub (i32neg (wrap32 ldtk_layer.px_total_offset_y))
       (i32mul dimensions_cell.y (wrap32 grid_size))⟩
  let visible := ldtk_layer.visible
  let tileset_uid := ldtk_layer.tileset_def_uid
  let layer_definition := ldtk_layer.layer_def_uid
  let mkLayer : SpecialValues E → Layer E := fun special =>
    { dimensions_cell := dimensions_cell, grid_size := grid_size
      opacity := opacity, total_offset_px := total_offset_px
      visible := visible, tileset_uid := tileset_uid
      layer_definition := layer_definition, special := special }
  match ldtk_layer.layer_instance_type with
  | "IntGrid" =>
    let values :=
      reverse_row_wise ldtk_layer.int_grid_csv (usizeOfI64 ldtk_layer.c_wid)
    let auto_layer :=
      reverse_row_wise
        (ldtk_layer.auto_layer_tiles.map fun tile =>
          Tile.load tile (dimensions_cell.mulScalar (wrap32 grid_size)))
        (usizeOfI64 ldtk_layer.c_wid)
    Except.ok (mkLayer (.IntGrid values auto_layer))
  | "Entities" =>
    match dE ldtk_layer.entity_instances dimensions_cell
        (dimensions_cell.mulScalar (wrap32 grid_size)) with
    | Except.error e => Except.error e
    | Except.ok entities => Except.ok (mkLayer (.Entities entities))
  | "Tiles" =>
    let tileset := ldtk_layer.tileset_def_uid
    let tiles :=
      reverse_row_wise
        (ldtk_layer.grid_tiles.map fun tile =>
          Tile.load tile (dimensions_cell.mulScalar (wrap32 grid_size)))
        (usizeOfI64 ldtk_layer.c_wid)
    Except.ok (mkLayer (.Tiles tileset tiles))
  | "AutoLayer" =>
    let auto_layer :=
      reverse_row_wise
        (ldtk_layer.auto_layer_tiles.map fun tile =>
          Tile.load tile (dimensions_cell.mulScalar (wrap32 grid_size)))
        (usizeOfI64 ldtk_layer.c_wid)
    Except.ok (mkLayer (.AutoLayer auto_layer))
  | unknown => Except.error (.UnknownLayerType unknown)

/-- Outcome of a load step that can also panic (Rust `unwrap`). -/
inductive LoadResult (α : Type u) where
  | ok (val : α)
  | err (e : LdtkError)
  | panic

/-- Embedding of the `Level` output struct, generic over the derived field and
layer collections. -/
structure Level (LevelFields : Type u) (Layers : Type v) where
  background_color : Color
  background_position_px : Option IVec2
  background_image_path : Option String
  identifier : String
  dimensions_px : IVec2
  id : Int
  world_position_px : IVec2
  fields : LevelFields
  layers : Layers

/-- Embedding of `Level::load`, generic over the derived deserializers for the
level's custom fields and its layer record.  The source calls
`ldtk_level.layer_instances.as_ref().unwrap()` (a panic when the project is
split into separate level files) and
`Color::hex(&ldtk_level.bg_color[1..]).unwrap()` (a panic on a malformed
color); both panics are explicit `LoadResult.panic` outcomes here. -/
def Level.load {F : Type u} {L : Type v}
    (deserializeFields : List ldtk2.FieldInstance → Except LdtkError F)
    (deserializeLayers : List ldtk2.LayerInstance → Except LdtkError L)
    (ldtk_level : ldtk2.Level) : LoadResult (Level F L) :=
  match deserializeFields ldtk_level.field_instances with
  | Except.error e => LoadResult.err e
  | Except.ok fields =>
    match ldtk_level.layer_instances with
    | none => LoadResult.panic
    | some insts =>
      match deserializeLayers insts with
      | Except.error e => LoadResult.err e
      | Except.ok layers =>
        match Color.hex (ldtk_level.bg_color.drop 1) with
        | none => LoadResult.panic
        | some background_color =>
          let background_position_px := ldtk_level.bg_pos.map fun pos =>
            (⟨wrap32 pos.top_left_px_x, wrap32 pos.top_left_px_x⟩ : IVec2)
          let background_image_path := ldtk_level.bg_rel_path
          let identifier := ldtk_level.identifier
          let dimensions_px : IVec2 := ⟨wrap32 ldtk_level.px_wid, wrap32 ldtk_level.px_hei⟩
          let id := ldtk_level.uid
          let world_position_px : IVec2 :=
            ⟨wrap32 ldtk_level.world_x,
             i32sub (i32neg (wrap32 ldtk_level.world_y)) dimensions_px.y⟩
          LoadResult.ok
            { background_color := background_color
              background_position_px := background_position_px
              background_image_path := background_image_path
              identifier := identifier
              dimensions_px := dimensions_px
              id := id
              world_position_px := world_position_px
              fields := fields
              layers := layers }

/-! ## Embeddings from the derive crate (`derive/src/lib.rs`) -/

/-- Model of Rust's `str::parse::<u8>` (the `FromStr` impl for `u8`): an
optional leading `+`, then one or more ASCII *decimal* digits, with the value
required to fit in a byte.  Hexadecimal digits `a`..`f` are not accepted. -/
def parse_u8 (s : List Char) : Option Nat :=
  let t := match s with
    | '+' :: rest => rest
    | _ => s
  if t = [] then none
  else if t.all Char.isDigit then
    let v := t.foldl (fun acc c => acc * 10 + (c.toNat - 48)) 0
    if v ≤ 255 then some v else none
  else none

/-- Byte-range slice `s[a..b]` of a Rust `&str`, on the ASCII inputs the color
parser receives (where byte indices coincide with character indices). -/
def sliceAscii (s : String) (a b : Nat) : List Char :=
  (s.toList.drop a).take (b - a)

/-- Token stream produced by `color_from_str`: either the tokens
`Color::rgb(r / 255., g / 255., b / 255.)` with the three parsed channel
values embedded as literals, or an emitted call-site error followed by the
placeholder tokens `()`. -/
inductive ColorTokens where
  | rgb (r g b : Nat)
  | invalid (msg : String)
deriving DecidableEq

/-- Embedding of `color_from_str` from `derive/src/lib.rs`: slice the channel
substrings `color[1..3]`, `color[3..5]`, `color[5..7]` and run each through
`str::parse::<u8>`. -/
def color_from_str (color : String) : ColorTokens :=
  match parse_u8 (sliceAscii color 1 3), parse_u8 (sliceAscii color 3 5),
      parse_u8 (sliceAscii color 5 7) with
  | some r, some g, some b => ColorTokens.rgb r g b
  | _, _, _ => ColorTokens.invalid ("Invalid color: " ++ color)

/-- Model of `serde_json::from_value::<i64>`. -/
def from_value_i64 : ldtk2.Json → Option Int
  | .jnum n => some n
  | _ => none

/-- Model of `serde_json::from_value::<f64>` (JSON numbers are modelled as
integers; any number deserializes). -/
def from_value_f64 : ldtk2.Json → Option Int
  | .jnum n => some n
  | _ => none

/-- Model of `serde_json::from_value::<String>`. -/
def from_value_string : ldtk2.Json → Option String
  | .jstr s => some s
  | _ => none

/-- Model of `serde_json::from_value::<bool>`. -/
def from_value_bool : ldtk2.Json → Option Bool
  | .jbool b => some b
  | _ => none

/-- Model of `serde_json::from_value::<(i32, i32)>`: a two-element JSON array
of numbers, each required to fit in an `i32`. -/
def from_value_point : ldtk2.Json → Option (Int × Int)
  | .jarr [.jnum x, .jnum y] =>
    if inI32 x ∧ inI32 y then some (x, y) else none
  | _ => none

/-- Token stream generated by `build_fields` for one field's value.
`noneLit` is the literal `None` emitted when the instance value is absent;
`emptyTokens` is the empty stream of the `LocalEnum` arm; `errorTokens` is an
emitted call-site error (plus empty tokens) for an unrecognized kind. -/
inductive FieldTokens where
  | intLit (n : Int)
  | floatLit (n : Int)
  | strLit (s : String)
  | boolLit (b : Bool)
  | colorLit (c : ColorTokens)
  | pointLit (x y : Int)
  | emptyTokens
  | errorTokens (msg : String)
  | noneLit
deriving DecidableEq

/-- Embedding of the per-field closure of `build_fields` from
`derive/src/lib.rs` (the value part; the snake-cased field name produced by
`format_ident!` is not modelled).  Each `serde_json::from_value::<T>(..).unwrap()`
is a panic on mismatch, modelled as `none`. -/
def build_field (field : ldtk2.FieldInstance) : Option FieldTokens :=
  match field.value with
  | none => some FieldTokens.noneLit
  | some v =>
    let t := field.field_instance_type
    if t = "Int" then (from_value_i64 v).map FieldTokens.intLit
    else if t = "Float" then (from_value_f64 v).map FieldTokens.floatLit
    else if t = "String" then (from_value_string v).map FieldTokens.strLit
    else if t = "FilePath" then (from_value_string v).map FieldTokens.strLit
    else if t = "Bool" then (from_value_bool v).map FieldTokens.boolLit
    else if t = "Color" then
      (from_value_string v).map fun s => FieldTokens.colorLit (color_from_str s)
    else if t = "Point" then
      (from_value_point v).map fun p => FieldTokens.pointLit p.1 p.2
    else if t.startsWith "LocalEnum." then
      (from_value_i64 v).map fun _ => FieldTokens.emptyTokens
    else some (FieldTokens.errorTokens ("Could not parse kind: " ++ t))

/-- Embedding of `build_fields`: one token stream per field instance; a panic
in any field's decode aborts the whole macro invocation. -/
def build_fields (field_instances : List ldtk2.FieldInstance) :
    Option (List FieldTokens) :=
  field_instances.mapM build_field

/-! ## Lemmas -/

theorem wrap32_eq_of_inI32 {n : Int} (h : inI32 n) : wrap32 n = n := by
  unfold wrap32
  unfold inI32 at h
  omega

theorem chunksRust_nil (n : Nat) : chunksRust n ([] : List α) = [] := by
  rw [chunksRust]
  split <;> rfl

theorem chunksRust_of_pos {n : Nat} {l : List α} (hn : n ≠ 0) (hl : l ≠ []) :
    chunksRust n l = l.take n :: chunksRust n (l.drop n) := by
  obtain ⟨x, xs, rfl⟩ := List.exists_cons_of_ne_nil hl
  rw [chunksRust, dif_neg hn]

theorem chunksRust_flatten {α : Type u} (n : Nat) (hn : n ≠ 0) (l : List α) :
    (chunksRust n l).flatten = l := by
  by_cases hl : l = []
  · subst hl
    simp [chunksRust_nil]
  · rw [chunksRust_of_pos hn hl, List.flatten_cons,
      chunksRust_flatten n hn (l.drop n), List.take_append_drop]
termination_by l.length
decreasing_by
  simp only [List.length_drop]
  exact Nat.sub_lt (List.length_pos.mpr hl) (Nat.pos_of_ne_zero hn)

theorem length_of_mem_chunksRust {α : Type u} {n : Nat} (hn : n ≠ 0) :
    ∀ (h : Nat) (l : List α), l.length = n * h →
      ∀ c ∈ chunksRust n l, c.length = n := by
  intro h
  induction h with
  | zero =>
    intro l hl c hc
    have hnil : l = [] := List.length_eq_zero.mp (by simpa using hl)
    subst hnil
    simp [chunksRust_nil] at hc
  | succ k ih =>
    intro l hl c hc
    have hlen : n ≤ l.length := by
      rw [hl, Nat.mul_succ]
      exact Nat.le_add_left n (n * k)
    have hlne : l ≠ [] := by
      intro he
      rw [he] at hl
      have h0 : n * (k + 1) = 0 := by simpa using hl.symm
      rcases Nat.mul_eq_zero.mp h0 with h1 | h1
      · exact hn h1
      · exact Nat.succ_ne_zero k h1
    rw [chunksRust_of_pos hn hlne] at hc
    rcases List.mem_cons.mp hc with hc | hc
    · subst hc
      exact List.length_take_of_le hlen
    · exact ih (l.drop n) (by rw [List.length_drop, hl, Nat.mul_succ]; omega) c hc

theorem chunksRust_flatten_of_uniform {α : Type u} {n : Nat} (hn : n ≠ 0) :
    ∀ (L : List (List α)), (∀ c ∈ L, c.length = n) →
      chunksRust n L.flatten = L := by
  intro L
  induction L with
  | nil =>
    intro _
    simp [chunksRust_nil]
  | cons c L ih =>
    intro hu
    have hc : c.length = n := hu c (List.mem_cons_self c L)
    have hcne : c ≠ [] := by
      intro he
      subst he
      exact hn (by simpa using hc.symm)
    have hne : c ++ L.flatten ≠ [] := by
      intro he
      exact hcne (List.append_eq_nil.mp he).1
    rw [List.flatten_cons, chunksRust_of_pos hn hne]
    have htake : (c ++ L.flatten).take n = c := by
      rw [← hc]
      exact List.take_left c L.flatten
    have hdrop : (c ++ L.flatten).drop n = L.flatten := by
      rw [← hc]
      exact List.drop_left c L.flatten
    rw [htake, hdrop, ih (fun d hd => hu d (List.mem_cons_of_mem c hd))]

theorem reverse_flatten_perm {α : Type u} :
    ∀ (L : List (List α)), List.Perm L.reverse.flatten L.flatten
  | [] => List.Perm.refl _
  | c :: L => by
    rw [List.reverse_cons, List.flatten_append, List.flatten_cons]
    have h1 : List.Perm (L.reverse.flatten ++ [c].flatten)
        ([c].flatten ++ L.reverse.flatten) := List.perm_append_comm
    have h2 : List.Perm ([c].flatten ++ L.reverse.flatten)
        ([c].flatten ++ L.flatten) :=
      (reverse_flatten_perm L).append_left _
    have h3 : [c].flatten ++ L.flatten = c ++ L.flatten := by simp
    exact (h1.trans h2).trans (h3 ▸ List.Perm.refl _)

theorem Layer.load_total_offset {E : Type u}
    {dE : List ldtk2.EntityInstance → IVec2 → IVec2 → Except LdtkError E}
    {lay : ldtk2.LayerInstance} {L : Layer E}
    (hL : Layer.load dE lay = Except.ok L) :
    L.total_offset_px =
      ⟨wrap32 lay.px_total_offset_x,
       i32sub (i32neg (wrap32 lay.px_total_offset_y))
         (i32mul (wrap32 lay.c_hei) (wrap32 lay.grid_size))⟩ := by
  simp only [Layer.load] at hL
  split at hL
  · cases hL; rfl
  · split at hL
    · exact Except.noConfusion hL
    · cases hL; rfl
  · cases hL; rfl
  · cases hL; rfl
  · exact Except.noConfusion hL

theorem Level.load_ok_fields {F : Type u} {L : Type v}
    {df : List ldtk2.FieldInstance → Except LdtkError F}
    {dl : List ldtk2.LayerInstance → Except LdtkError L}
    {lvl : ldtk2.Level} {out : Level F L}
    (hV : Level.load df dl lvl = LoadResult.ok out) :
    out.world_position_px =
      ⟨wrap32 lvl.world_x,
       i32sub (i32neg (wrap32 lvl.world_y)) (wrap32 lvl.px_hei)⟩ ∧
    out.background_position_px = lvl.bg_pos.map fun pos =>
      (⟨wrap32 pos.top_left_px_x, wrap32 pos.top_left_px_x⟩ : IVec2) := by
  simp only [Level.load] at hV
  split at hV
  · exact LoadResult.noConfusion hV
  · split at hV
    · exact LoadResult.noConfusion hV
    · split at hV
      · exact LoadResult.noConfusion hV
      · split at hV
        · exact LoadResult.noConfusion hV
        · cases hV; exact ⟨rfl, rfl⟩

/-! ## Claim theorems -/

/-- C1: the claim says the decoded `flip_y` flag is true exactly when bit 1 of
the tile's flip field `f` is set.  The source computes
`tile.f & 0x2 == 1`, i.e. `(f &&& 2) == 1`, which is never true because
`f &&& 2` is either `0` or `2`.  At the failing inputs `f = 2` and `f = 3`
(bit 1 set, so the claim demands `flip_y = true`) the decoder yields
`flip_y = false`. -/
theorem flipY_bit_never_decoded :
    (2 : Int).land 0x2 = 2 ∧
    (Tile.load { f := 2, px_x := 0, px_y := 0, src_x := 0, src_y := 0, t := 0 }
      ⟨0, 0⟩).flip_y = false ∧
    (Tile.load { f := 3, px_x := 0, px_y := 0, src_x := 0, src_y := 0, t := 0 }
      ⟨0, 0⟩).flip_y = false :=
  ⟨by decide, by decide, by decide⟩

/-- C4: for every flat list of length `w · h` with row length `w > 0`,
row-wise reversal is an involution, and on a one-row grid (`h = 1`) a single
application is the identity. -/
theorem rowReversal_involution {α : Type u} (l : List α) (w h : Nat)
    (hw : 0 < w) (hlen : l.length = w * h) :
    reverse_row_wise (reverse_row_wise l w) w = l ∧
      (h = 1 → reverse_row_wise l w = l) := by
  have hw' : w ≠ 0 := Nat.pos_iff_ne_zero.mp hw
  constructor
  · have huni : ∀ c ∈ (chunksRust w l).reverse, c.length = w := fun c hc =>
      length_of_mem_chunksRust hw' h l hlen c (List.mem_reverse.mp hc)
    show (chunksRust w (((chunksRust w l).reverse).flatten)).reverse.flatten = l
    rw [chunksRust_flatten_of_uniform hw' _ huni, List.reverse_reverse]
    exact chunksRust_flatten w hw' l
  · intro h1
    subst h1
    have hl1 : l.length = w := by simpa using hlen
    have hlne : l ≠ [] := by
      intro he
      rw [he] at hl1
      exact hw' (by simpa using hl1.symm)
    show ((chunksRust w l).reverse).flatten = l
    rw [chunksRust_of_pos hw' hlne]
    have hdrop : l.drop w = [] := by
      rw [← hl1, List.drop_length]
    rw [hdrop, chunksRust_nil]
    simp [List.take_of_length_le (le_of_eq hl1)]

/-- Witness for C4 at the concrete grids `[1,2,3,4]` (2 wide, 2 high) and
`[5,6]` (2 wide, 1 high). -/
theorem rowReversal_involution_witness :
    (0 < 2 ∧ ([1, 2, 3, 4] : List Int).length = 2 * 2 ∧
      reverse_row_wise (reverse_row_wise [1, 2, 3, 4] 2) 2 = [1, 2, 3, 4]) ∧
    (0 < 2 ∧ ([5, 6] : List Int).length = 2 * 1 ∧
      reverse_row_wise [5, 6] 2 = [5, 6]) :=
  ⟨⟨by decide, by decide,
    (rowReversal_involution [1, 2, 3, 4] 2 2 (by decide) (by decide)).1⟩,
   ⟨by decide, by decide,
    (rowReversal_involution [5, 6] 2 1 (by decide) (by decide)).2 rfl⟩⟩

/-- C10: for every input list and every row length `r > 0`, row-wise reversal
returns a list of the same length that is a permutation of the input, so the
grid transformation never drops, duplicates, or alters an element. -/
theorem rowReversal_perm {α : Type u} (l : List α) (r : Nat) (hr : 0 < r) :
    (reverse_row_wise l r).length = l.length ∧
      List.Perm (reverse_row_wise l r) l := by
  have hperm : List.Perm (reverse_row_wise l r) l := by
    have h1 := reverse_flatten_perm (chunksRust r l)
    have h2 : (chunksRust r l).flatten = l :=
      chunksRust_flatten r (Nat.pos_iff_ne_zero.mp hr) l
    show List.Perm ((chunksRust r l).reverse.flatten) l
    conv_rhs => rw [← h2]
    exact h1
  exact ⟨hperm.length_eq, hperm⟩

/-- Witness for C10 at a ragged input (length 3 with row length 2). -/
theorem rowReversal_perm_witness :
    0 < 2 ∧ ((reverse_row_wise ([7, 8, 9] : List Int) 2).length = 3 ∧
      List.Perm (reverse_row_wise ([7, 8, 9] : List Int) 2) [7, 8, 9]) :=
  ⟨by decide, rowReversal_perm [7, 8, 9] 2 (by decide)⟩

/-- C5: the claim says every valid 6-hex-digit literal of the form `#rrggbb`
decodes (base 16) successfully.  The source parses each two-character channel
slice with `str::parse::<u8>`, which accepts only *decimal* digits, so
`"#ff0000"` is rejected with the emitted invalid-color error, and a
digit-only literal such as `"#112233"` is misread as the decimal channel
values 11, 22, 33 (a base-16 reading gives 17, 34, 51). -/
theorem color_hex_rejected :
    color_from_str "#ff0000" = ColorTokens.invalid "Invalid color: #ff0000" ∧
    color_from_str "#112233" = ColorTokens.rgb 11 22 33 :=
  ⟨by decide, by decide⟩

/-- C6 counterexample: a field whose declared kind is non-nullable (`Int`,
`canBeNull = false` in its definition) and whose instance value is absent is
generated as the literal `None`, not rejected with a missing-field error;
the field definitions are not even an input of `build_fields`. -/
theorem absent_nonNullable_field_not_error :
    build_field
      { identifier := "life", field_instance_type := "Int", value := none } =
      some FieldTokens.noneLit :=
  rfl

/-- C6 (amended): for every field instance whose value is absent from the raw
document, the generator emits the literal `None` regardless of the declared
kind or nullability; no missing-field error is produced. -/
theorem absent_field_emits_none (field : ldtk2.FieldInstance)
    (h : field.value = none) :
    build_field field = some FieldTokens.noneLit := by
  simp only [build_field, h]

/-- Witness for the amended C6 at a concrete absent-valued `Bool` field. -/
theorem absent_field_emits_none_witness :
    ({ identifier := "hp", field_instance_type := "Bool", value := none } :
      ldtk2.FieldInstance).value = none ∧
    build_field
      { identifier := "hp", field_instance_type := "Bool", value := none } =
      some FieldTokens.noneLit :=
  ⟨rfl, absent_field_emits_none _ rfl⟩

/-- C8 counterexample: a level stored with its layer instances in a separate
file (the layer-instance list absent) makes `Level::load` panic (the
`unwrap` of `None`), so the host gets a crash, not the structured error the
claim promises. -/
theorem splitProject_not_structured_error :
    Level.load (fun _ => Except.ok ()) (fun _ => Except.ok ())
      { field_instances := [], layer_instances := none, bg_color := "#000000",
        bg_pos := none, bg_rel_path := none, identifier := "L", px_wid := 8,
        px_hei := 8, uid := 0, world_x := 0, world_y := 0 } =
      LoadResult.panic :=
  rfl

/-- C8 (amended): for every level whose layer-instance list is absent (and
whose custom fields decode), loading is fatal, but as a panic of the unwrap
on the absent list, not as a structured `LdtkError`; no `World` is produced
because the process aborts. -/
theorem splitProject_panics {F : Type u} {L : Type v}
    (df : List ldtk2.FieldInstance → Except LdtkError F)
    (dl : List ldtk2.LayerInstance → Except LdtkError L)
    (lvl : ldtk2.Level) (f : F)
    (hf : df lvl.field_instances = Except.ok f)
    (hnone : lvl.layer_instances = none) :
    Level.load df dl lvl = LoadResult.panic := by
  simp only [Level.load, hf, hnone]

/-- Witness for the amended C8 at a concrete split-file level. -/
theorem splitProject_panics_witness :
    ((fun _ => Except.ok ()) :
        List ldtk2.FieldInstance → Except LdtkError Unit) [] =
      Except.ok () ∧
    Level.load (fun _ => Except.ok ()) (fun _ => Except.ok ())
      { field_instances := [], layer_instances := none, bg_color := "#ffffff",
        bg_pos := none, bg_rel_path := none, identifier := "M", px_wid := 16,
        px_hei := 16, uid := 1, world_x := 0, world_y := 0 } =
      LoadResult.panic :=
  ⟨rfl, splitProject_panics _ _ _ () rfl rfl⟩

/-- C2: a raw top-left-origin offset `(x, y)` is mapped to
`(x, -y - extentY)` with the x component copied unchanged: a tile uses the
pixel height of the layer frame passed to `Tile::load`, a layer's total
pixel offset uses its cell height times its grid size, and a level's world
position uses the level's pixel height.  The `inI32` hypotheses rule out
`i32` overflow in the wrapped arithmetic. -/
theorem coordinateFlip_formula {E : Type u} {F : Type v} {LL : Type w}
    (dE : List ldtk2.EntityInstance → IVec2 → IVec2 → Except LdtkError E)
    (df : List ldtk2.FieldInstance → Except LdtkError F)
    (dl : List ldtk2.LayerInstance → Except LdtkError LL)
    (tile : ldtk2.TileInstance) (dims : IVec2)
    (lay : ldtk2.LayerInstance) (L : Layer E)
    (lvl : ldtk2.Level) (out : Level F LL)
    (hL : Layer.load dE lay = Except.ok L)
    (hV : Level.load df dl lvl = LoadResult.ok out)
    (ht1 : inI32 tile.px_x) (ht2 : inI32 tile.px_y) (ht3 : inI32 (-tile.px_y))
    (ht4 : inI32 (-tile.px_y - dims.y))
    (hl1 : inI32 lay.px_total_offset_x) (hl2 : inI32 lay.px_total_offset_y)
    (hl3 : inI32 (-lay.px_total_offset_y)) (hl4 : inI32 lay.c_hei)
    (hl5 : inI32 lay.grid_size) (hl6 : inI32 (lay.c_hei * lay.grid_size))
    (hl7 : inI32 (-lay.px_total_offset_y - lay.c_hei * lay.grid_size))
    (hv1 : inI32 lvl.world_x) (hv2 : inI32 lvl.world_y)
    (hv3 : inI32 (-lvl.world_y)) (hv4 : inI32 lvl.px_hei)
    (hv5 : inI32 (-lvl.world_y - lvl.px_hei)) :
    (Tile.load tile dims).position_px = ⟨tile.px_x, -tile.px_y - dims.y⟩ ∧
    L.total_offset_px =
      ⟨lay.px_total_offset_x,
       -lay.px_total_offset_y - lay.c_hei * lay.grid_size⟩ ∧
    out.world_position_px = ⟨lvl.world_x, -lvl.world_y - lvl.px_hei⟩ := by
  refine ⟨?_, ?_, ?_⟩
  · show (⟨wrap32 tile.px_x,
        i32sub (i32neg (wrap32 tile.px_y)) dims.y⟩ : IVec2) = _
    rw [i32sub, i32neg, wrap32_eq_of_inI32 ht2, wrap32_eq_of_inI32 ht3,
      wrap32_eq_of_inI32 ht4, wrap32_eq_of_inI32 ht1]
  · rw [Layer.load_total_offset hL, i32sub, i32neg, i32mul,
      wrap32_eq_of_inI32 hl2, wrap32_eq_of_inI32 hl3, wrap32_eq_of_inI32 hl4,
      wrap32_eq_of_inI32 hl5, wrap32_eq_of_inI32 hl6, wrap32_eq_of_inI32 hl7,
      wrap32_eq_of_inI32 hl1]
  · rw [(Level.load_ok_fields hV).1, i32sub, i32neg,
      wrap32_eq_of_inI32 hv2, wrap32_eq_of_inI32 hv3, wrap32_eq_of_inI32 hv4,
      wrap32_eq_of_inI32 hv5, wrap32_eq_of_inI32 hv1]

/-- Witness for C2: a concrete tile in a 48 x 32 pixel frame, a concrete
Entities layer (2 cells high, grid size 16, offset (4, 6)), and a concrete
level (80 pixels high, world position (5, 7)). -/
theorem coordinateFlip_formula_witness :
    Layer.load (fun _ _ _ => Except.ok ())
      { c_hei := 2, c_wid := 3, grid_size := 16, opacity := 1.0,
        px_total_offset_x := 4, px_total_offset_y := 6, visible := true,
        tileset_def_uid := none, layer_def_uid := 1,
        layer_instance_type := "Entities", int_grid_csv := [],
        auto_layer_tiles := [], grid_tiles := [], entity_instances := [] } =
      Except.ok
        { dimensions_cell := ⟨3, 2⟩, grid_size := 16, opacity := 1.0,
          total_offset_px := ⟨4, -38⟩, visible := true, tileset_uid := none,
          layer_definition := 1,
          special := SpecialValues.Entities () } ∧
    Level.load (fun _ => Except.ok ()) (fun _ => Except.ok ())
      { field_instances := [], layer_instances := some [],
        bg_color := "#0a0b0c", bg_pos := none, bg_rel_path := none,
        identifier := "W", px_wid := 64, px_hei := 80, uid := 3,
        world_x := 5, world_y := 7 } =
      LoadResult.ok
        { background_color := ⟨10, 11, 12⟩, background_position_px := none,
          background_image_path := none, identifier := "W",
          dimensions_px := ⟨64, 80⟩, id := 3, world_position_px := ⟨5, -87⟩,
          fields := (), layers := () } ∧
    ((Tile.load { f := 0, px_x := 7, px_y := 9, src_x := 0, src_y := 0, t := 5 }
        ⟨48, 32⟩).position_px = ⟨7, -9 - 32⟩ ∧
      ({ dimensions_cell := ⟨3, 2⟩, grid_size := 16, opacity := 1.0,
          total_offset_px := ⟨4, -38⟩, visible := true, tileset_uid := none,
          layer_definition := 1,
          special := SpecialValues.Entities () } :
        Layer Unit).total_offset_px = ⟨4, -6 - 2 * 16⟩ ∧
      ({ background_color := ⟨10, 11, 12⟩, background_position_px := none,
          background_image_path := none, identifier := "W",
          dimensions_px := ⟨64, 80⟩, id := 3, world_position_px := ⟨5, -87⟩,
          fields := (), layers := () } :
        Level Unit Unit).world_position_px = ⟨5, -7 - 80⟩) :=
  ⟨rfl, rfl,
    coordinateFlip_formula (fun _ _ _ => Except.ok ())
      (fun _ => Except.ok ()) (fun _ => Except.ok ())
      { f := 0, px_x := 7, px_y := 9, src_x := 0, src_y := 0, t := 5 }
      ⟨48, 32⟩
      { c_hei := 2, c_wid := 3, grid_size := 16, opacity := 1.0,
        px_total_offset_x := 4, px_total_offset_y := 6, visible := true,
        tileset_def_uid := none, layer_def_uid := 1,
        layer_instance_type := "Entities", int_grid_csv := [],
        auto_layer_tiles := [], grid_tiles := [], entity_instances := [] }
      { dimensions_cell := ⟨3, 2⟩, grid_size := 16, opacity := 1.0,
        total_offset_px := ⟨4, -38⟩, visible := true, tileset_uid := none,
        layer_definition := 1, special := SpecialValues.Entities () }
      { field_instances := [], layer_instances := some [],
        bg_color := "#0a0b0c", bg_pos := none, bg_rel_path := none,
        identifier := "W", px_wid := 64, px_hei := 80, uid := 3,
        world_x := 5, world_y := 7 }
      { background_color := ⟨10, 11, 12⟩, background_position_px := none,
        background_image_path := none, identifier := "W",
        dimensions_px := ⟨64, 80⟩, id := 3, world_position_px := ⟨5, -87⟩,
        fields := (), layers := () }
      rfl rfl
      (by decide) (by decide) (by decide) (by decide) (by decide) (by decide)
      (by decide) (by decide) (by decide) (by decide) (by decide) (by decide)
      (by decide) (by decide) (by decide) (by decide)⟩

/-- C9: for every level that carries a raw background position, the decoded
background position is `Some` pair whose two components are both the raw
top-left x component (the raw y component is never read and no Y-axis flip
is applied). -/
theorem backgroundPosition_uses_x_twice {F : Type u} {LL : Type v}
    (df : List ldtk2.FieldInstance → Except LdtkError F)
    (dl : List ldtk2.LayerInstance → Except LdtkError LL)
    (lvl : ldtk2.Level) (out : Level F LL)
    (pos : ldtk2.LevelBackgroundPosition)
    (hV : Level.load df dl lvl = LoadResult.ok out)
    (hbg : lvl.bg_pos = some pos)
    (hx : inI32 pos.top_left_px_x) :
    out.background_position_px =
      some ⟨pos.top_left_px_x, pos.top_left_px_x⟩ := by
  have h := (Level.load_ok_fields hV).2
  rw [hbg] at h
  simp only [Option.map_some'] at h
  rw [h, wrap32_eq_of_inI32 hx]

/-- Witness for C9 at a concrete level whose raw background position is
`(3, 9)`: the decoded position is `(3, 3)`. -/
theorem backgroundPosition_uses_x_twice_witness :
    Level.load (fun _ => Except.ok ()) (fun _ => Except.ok ())
      { field_instances := [], layer_instances := some [],
        bg_color := "#0a0b0c", bg_pos := some ⟨3, 9⟩, bg_rel_path := none,
        identifier := "B", px_wid := 8, px_hei := 8, uid := 0,
        world_x := 0, world_y := 0 } =
      LoadResult.ok
        { background_color := ⟨10, 11, 12⟩,
          background_position_px := some ⟨3, 3⟩,
          background_image_path := none, identifier := "B",
          dimensions_px := ⟨8, 8⟩, id := 0, world_position_px := ⟨0, -8⟩,
          fields := (), layers := () } ∧
    ({ field_instances := [], layer_instances := some [],
        bg_color := "#0a0b0c", bg_pos := some ⟨3, 9⟩, bg_rel_path := none,
        identifier := "B", px_wid := 8, px_hei := 8, uid := 0,
        world_x := 0, world_y := 0 } : ldtk2.Level).bg_pos = some ⟨3, 9⟩ ∧
    inI32 3 ∧
    ({ background_color := ⟨10, 11, 12⟩,
        background_position_px := some ⟨3, 3⟩,
        background_image_path := none, identifier := "B",
        dimensions_px := ⟨8, 8⟩, id := 0, world_position_px := ⟨0, -8⟩,
        fields := (), layers := () } :
      Level Unit Unit).background_position_px = some ⟨3, 3⟩ :=
  ⟨rfl, rfl, by decide,
    backgroundPosition_uses_x_twice
      (fun _ => Except.ok ()) (fun _ => Except.ok ())
      { field_instances := [], layer_instances := some [],
        bg_color := "#0a0b0c", bg_pos := some ⟨3, 9⟩, bg_rel_path := none,
        identifier := "B", px_wid := 8, px_hei := 8, uid := 0,
        world_x := 0, world_y := 0 }
      { background_color := ⟨10, 11, 12⟩,
        background_position_px := some ⟨3, 3⟩,
        background_image_path := none, identifier := "B",
        dimensions_px := ⟨8, 8⟩, id := 0, world_position_px := ⟨0, -8⟩,
        fields := (), layers := () }
      ⟨3, 9⟩ rfl rfl (by decide)⟩

/-- C7: for every layer instance whose declared kind string is none of
"IntGrid", "Entities", "Tiles", "AutoLayer", loading returns the
unknown-layer-kind error carrying that string, and no `Layer` value is
produced. -/
theorem unknownLayerKind_error {E : Type u}
    (dE : List ldtk2.EntityInstance → IVec2 → IVec2 → Except LdtkError E)
    (raw : ldtk2.LayerInstance)
    (h1 : raw.layer_instance_type ≠ "IntGrid")
    (h2 : raw.layer_instance_type ≠ "Entities")
    (h3 : raw.layer_instance_type ≠ "Tiles")
    (h4 : raw.layer_instance_type ≠ "AutoLayer") :
    Layer.load dE raw =
      Except.error (LdtkError.UnknownLayerType raw.layer_instance_type) := by
  simp only [Layer.load, h1, h2, h3, h4]

/-- Witness for C7 at a concrete layer of the unrecognized kind "Foo". -/
theorem unknownLayerKind_error_witness :
    ("Foo" ≠ "IntGrid" ∧ "Foo" ≠ "Entities" ∧ "Foo" ≠ "Tiles" ∧
      "Foo" ≠ "AutoLayer") ∧
    Layer.load (E := Unit) (fun _ _ _ => Except.ok ())
      { c_hei := 1, c_wid := 1, grid_size := 16, opacity := 1.0,
        px_total_offset_x := 0, px_total_offset_y := 0, visible := true,
        tileset_def_uid := none, layer_def_uid := 2,
        layer_instance_type := "Foo", int_grid_csv := [],
        auto_layer_tiles := [], grid_tiles := [], entity_instances := [] } =
      Except.error (LdtkError.UnknownLayerType "Foo") :=
  ⟨⟨by decide, by decide, by decide, by decide⟩,
    unknownLayerKind_error (fun _ _ _ => Except.ok ())
      { c_hei := 1, c_wid := 1, grid_size := 16, opacity := 1.0,
        px_total_offset_x := 0, px_total_offset_y := 0, visible := true,
        tileset_def_uid := none, layer_def_uid := 2,
        layer_instance_type := "Foo", int_grid_csv := [],
        auto_layer_tiles := [], grid_tiles := [], entity_instances := [] }
      (by decide) (by decide) (by decide) (by decide)⟩

/-- C3: for every layer instance of kind "IntGrid" whose flat value array
fills a `w x h` grid of row length `w = c_wid > 0`, loading succeeds, the
decoded payload is `IntGrid` with the raw value array transformed by
`reverse_row_wise` (and the auto tiles decoded and row-reversed likewise),
and that transform is exactly a reversal of the vertical order of the rows
(chunks of length `w`), each row internally unchanged; in particular the
2-wide raw grid `[1,0,0,1]` decodes to `[0,1,1,0]`. -/
theorem intGrid_values_row_reversed {E : Type u}
    (dE : List ldtk2.EntityInstance → IVec2 → IVec2 → Except LdtkError E)
    (raw : ldtk2.LayerInstance) (h : Nat)
    (hk : raw.layer_instance_type = "IntGrid")
    (hw : 0 < usizeOfI64 raw.c_wid)
    (hlen : raw.int_grid_csv.length = usizeOfI64 raw.c_wid * h) :
    Except.map (fun L => L.special) (Layer.load dE raw) =
      Except.ok (SpecialValues.IntGrid
        (reverse_row_wise raw.int_grid_csv (usizeOfI64 raw.c_wid))
        (reverse_row_wise
          (raw.auto_layer_tiles.map fun tile =>
            Tile.load tile
              (IVec2.mulScalar ⟨wrap32 raw.c_wid, wrap32 raw.c_hei⟩
                (wrap32 raw.grid_size)))
          (usizeOfI64 raw.c_wid))) ∧
    chunksRust (usizeOfI64 raw.c_wid)
        (reverse_row_wise raw.int_grid_csv (usizeOfI64 raw.c_wid)) =
      (chunksRust (usizeOfI64 raw.c_wid) raw.int_grid_csv).reverse ∧
    reverse_row_wise ([1, 0, 0, 1] : List Int) 2 = [0, 1, 1, 0] := by
  have hw' : usizeOfI64 raw.c_wid ≠ 0 := Nat.pos_iff_ne_zero.mp hw
  refine ⟨?_, ?_, ?_⟩
  · simp only [Layer.load, hk]
    rfl
  · have huni : ∀ c ∈ (chunksRust (usizeOfI64 raw.c_wid)
        raw.int_grid_csv).reverse, c.length = usizeOfI64 raw.c_wid :=
      fun c hc =>
        length_of_mem_chunksRust hw' h raw.int_grid_csv hlen c
          (List.mem_reverse.mp hc)
    exact chunksRust_flatten_of_uniform hw' _ huni
  · simp [reverse_row_wise, chunksRust_of_pos, chunksRust_nil]

/-- Witness for C3 at the concrete 2 x 2 IntGrid scenario with raw values
`[1,0,0,1]`: the decoded payload is `IntGrid [0,1,1,0]` with no auto tiles. -/
theorem intGrid_values_row_reversed_witness :
    ("IntGrid" = "IntGrid" ∧ 0 < usizeOfI64 2 ∧
      ([1, 0, 0, 1] : List Int).length = usizeOfI64 2 * 2) ∧
    Except.map (fun L => L.special)
      (Layer.load (E := Unit) (fun _ _ _ => Except.ok ())
        { c_hei := 2, c_wid := 2, grid_size := 16, opacity := 1.0,
          px_total_offset_x := 0, px_total_offset_y := 0, visible := true,
          tileset_def_uid := none, layer_def_uid := 5,
          layer_instance_type := "IntGrid", int_grid_csv := [1, 0, 0, 1],
          auto_layer_tiles := [], grid_tiles := [], entity_instances := [] }) =
      Except.ok (SpecialValues.IntGrid [0, 1, 1, 0] []) := by
  obtain ⟨hload, hchunks, hconcrete⟩ :=
    intGrid_values_row_reversed (E := Unit) (fun _ _ _ => Except.ok ())
      { c_hei := 2, c_wid := 2, grid_size := 16, opacity := 1.0,
        px_total_offset_x := 0, px_total_offset_y := 0, visible := true,
        tileset_def_uid := none, layer_def_uid := 5,
        layer_instance_type := "IntGrid", int_grid_csv := [1, 0, 0, 1],
        auto_layer_tiles := [], grid_tiles := [], entity_instances := [] }
      2 rfl (by decide) (by decide)
  refine ⟨⟨rfl, by decide, by decide⟩, ?_⟩
  rw [hload]
  have hu : usizeOfI64 2 = 2 := by decide
  rw [hu, hconcrete]
  have hauto : reverse_row_wise (List.map
      (fun tile => Tile.load tile
        (IVec2.mulScalar ⟨wrap32 2, wrap32 2⟩ (wrap32 16)))
      ([] : List ldtk2.TileInstance)) 2 = [] := by
    simp [reverse_row_wise, chunksRust_nil]
  rw [hauto]
